import Mathlib

/-!
Verification of the `dex` Docker metrics collector (`collector.go`).

The embedding models the per-container collection pipeline of
`src/collector.go`:

* `processContainer` — name filtering, lifecycle gauges, inspect
  (restart count), and, for running containers, the stats fetch/decode
  and the resource-metric derivation;
* the metric-family functions `CPUMetrics`, `memoryMetrics`,
  `networkMetrics`, `blockIoMetrics`, `pidsMetrics`;
* `Collect` — the per-cycle enumeration and fan-out.

Go `uint64` arithmetic is modelled as `Nat` with explicit wrapping
modulo `2 ^ 64` (`sub64`, and the wrapped additions in the block-I/O
fold).  Go `float64` values are modelled by `FVal`: a rational number,
or the IEEE non-finite results `nan` / `inf` that an unguarded division
by zero produces (both operands of every division in the source are
non-negative, so a negative infinity never arises).  The exact rounding
of `float64` is abstracted to exact rational arithmetic.

The runtime API is a parameter: the regexp engine appears as a
function `String → List String` with the `FindStringSubmatch`
convention (empty list = no match; otherwise the head is the whole
match and the remaining elements are the capture groups), and the
inspect / stats calls appear as `Except` / `Option` valued arguments,
with `Except.error` an API-call failure and — for stats — `Option.none`
standing for a payload that fails to decode, which in the source leaves
the zero-valued `container.StatsResponse` struct in place.
-/

/-- Modulus of Go `uint64` arithmetic. -/
def W : Nat := 2 ^ 64

/-- Go `uint64` subtraction `a - b`: wraps modulo `2 ^ 64`. -/
def sub64 (a b : Nat) : Nat := (a + (W - b % W)) % W

/-- Metric kinds of `prometheus.GaugeValue` / `prometheus.CounterValue`. -/
inductive MetricKind where
  | gauge
  | counter
deriving DecidableEq, Repr

/-- A Go `float64` value as produced by the collector: a finite value
(abstracted to an exact rational) or the IEEE results of an unguarded
division by zero on non-negative operands. -/
inductive FVal where
  | num (q : ℚ)
  | nan
  | inf
deriving DecidableEq, Repr

/-- `float64(a) / float64(b) * 100.0` on non-negative integer inputs:
IEEE division gives `NaN` for `0/0`, `+Inf` for `x/0` with `x > 0`. -/
def fdivMul100 (a b : Nat) : FVal :=
  if b = 0 then (if a = 0 then FVal.nan else FVal.inf)
  else FVal.num ((a : ℚ) / (b : ℚ) * 100)

/-- One `prometheus.MustNewConstMetric` emission: descriptor name, help
text, kind, value, and the single `container_name` label value. -/
structure MetricEvent where
  name : String
  help : String
  kind : MetricKind
  value : FVal
  label : String
deriving DecidableEq, Repr

/-- `container.Summary` fields used by the collector. -/
structure ContainerSummary where
  id : String
  names : List String
  state : String
deriving DecidableEq, Repr

/-- `container.CPUUsage` (the field read by the collector). -/
structure CPUUsage where
  totalUsage : Nat
deriving DecidableEq, Repr

/-- `container.CPUStats` fields used by the collector. -/
structure CPUStats where
  cpuUsage : CPUUsage
  systemUsage : Nat
deriving DecidableEq, Repr

/-- `container.MemoryStats` fields used by the collector; the
`Stats` map is an association list. -/
structure MemoryStats where
  usage : Nat
  limit : Nat
  stats : List (String × Nat)
deriving DecidableEq, Repr

/-- Per-interface network counters. -/
structure NetworkStats where
  rxBytes : Nat
  txBytes : Nat
deriving DecidableEq, Repr

/-- One `blkio` service-bytes record: operation kind and value. -/
structure BlkioStatEntry where
  op : String
  value : Nat
deriving DecidableEq, Repr

/-- `container.PidsStats` field used by the collector. -/
structure PidsStats where
  current : Nat
deriving DecidableEq, Repr

/-- `container.StatsResponse` fields used by the collector. -/
structure StatsResponse where
  cpuStats : CPUStats
  preCpuStats : CPUStats
  memoryStats : MemoryStats
  networks : List (String × NetworkStats)
  blkioServiceBytes : List BlkioStatEntry
  pidsStats : PidsStats
deriving DecidableEq, Repr

/-- The zero value of `container.StatsResponse`: what the decoded
struct holds when `json.Decode` fails on a malformed payload. -/
def zeroStats : StatsResponse :=
  { cpuStats := { cpuUsage := { totalUsage := 0 }, systemUsage := 0 }
    preCpuStats := { cpuUsage := { totalUsage := 0 }, systemUsage := 0 }
    memoryStats := { usage := 0, limit := 0, stats := [] }
    networks := []
    blkioServiceBytes := []
    pidsStats := { current := 0 } }

/-- Go map lookup with the zero value for a missing key,
as in `MemoryStats.Stats["cache"]`. -/
def lookupNat (m : List (String × Nat)) (k : String) : Nat :=
  (m.lookup k).getD 0

/-- Go map lookup with the zero struct for a missing key,
as in `containerStats.Networks["eth0"]`. -/
def lookupNet (m : List (String × NetworkStats)) (k : String) : NetworkStats :=
  (m.lookup k).getD { rxBytes := 0, txBytes := 0 }

/-- ASCII case folding of one character, as in `strings.EqualFold`
restricted to the ASCII range. -/
def foldChar (c : Char) : Char :=
  if 'A' ≤ c ∧ c ≤ 'Z' then Char.ofNat (c.toNat + 32) else c

/-- `strings.EqualFold`: case-insensitive string equality. -/
def equalFold (a b : String) : Bool :=
  a.data.map foldChar = b.data.map foldChar

/-- `CPUMetrics` (collector.go lines 153-173): the wrapped `uint64`
deltas, the unguarded percent division, and the seconds counter. -/
def CPUMetrics (s : StatsResponse) (cName : String) : List MetricEvent :=
  let totalUsage := s.cpuStats.cpuUsage.totalUsage
  let cpuDelta := sub64 totalUsage s.preCpuStats.cpuUsage.totalUsage
  let sysemDelta := sub64 s.cpuStats.systemUsage s.preCpuStats.systemUsage
  let cpuUtilization := fdivMul100 cpuDelta sysemDelta
  [ { name := "dex_cpu_utilization_percent"
      help := "CPU utilization in percent"
      kind := MetricKind.gauge
      value := cpuUtilization
      label := cName },
    { name := "dex_cpu_utilization_seconds_total"
      help := "Cumulative CPU utilization in seconds"
      kind := MetricKind.counter
      value := FVal.num ((totalUsage : ℚ) / 1000000000)
      label := cName } ]

/-- `networkMetrics` (collector.go lines 175-188): the two counters of
the hardcoded `eth0` interface, zero when the key is absent. -/
def networkMetrics (s : StatsResponse) (cName : String) : List MetricEvent :=
  [ { name := "dex_network_rx_bytes_total"
      help := "Network received bytes total"
      kind := MetricKind.counter
      value := FVal.num ((lookupNet s.networks "eth0").rxBytes : ℚ)
      label := cName },
    { name := "dex_network_tx_bytes_total"
      help := "Network sent bytes total"
      kind := MetricKind.counter
      value := FVal.num ((lookupNet s.networks "eth0").txBytes : ℚ)
      label := cName } ]

/-- `memoryMetrics` (collector.go lines 190-216): wrapped `uint64`
usage minus cache, the limit, and the unguarded percent division. -/
def memoryMetrics (s : StatsResponse) (cName : String) : List MetricEvent :=
  let memoryUsage := sub64 s.memoryStats.usage (lookupNat s.memoryStats.stats "cache")
  let memoryTotal := s.memoryStats.limit
  let memoryUtilization := fdivMul100 memoryUsage memoryTotal
  [ { name := "dex_memory_usage_bytes"
      help := "Total memory usage bytes"
      kind := MetricKind.counter
      value := FVal.num (memoryUsage : ℚ)
      label := cName },
    { name := "dex_memory_total_bytes"
      help := "Total memory bytes"
      kind := MetricKind.gauge
      value := FVal.num (memoryTotal : ℚ)
      label := cName },
    { name := "dex_memory_utilization_percent"
      help := "Memory utilization percent"
      kind := MetricKind.gauge
      value := memoryUtilization
      label := cName } ]

/-- The loop body of `blockIoMetrics`: a record adds its value (with
`uint64` wrap) to the read total when its op case-insensitively equals
"read", and to the write total when it equals "write". -/
def blkioStep (acc : Nat × Nat) (b : BlkioStatEntry) : Nat × Nat :=
  ( if equalFold b.op "read" then (acc.1 + b.value) % W else acc.1,
    if equalFold b.op "write" then (acc.2 + b.value) % W else acc.2 )

/-- The accumulation loop of `blockIoMetrics` (collector.go lines
219-227): fold over the service-bytes records from `(0, 0)`. -/
def blkioTotals (l : List BlkioStatEntry) : Nat × Nat :=
  l.foldl blkioStep (0, 0)

/-- `blockIoMetrics` (collector.go lines 218-242): the two cumulative
counters built from the fold. -/
def blockIoMetrics (s : StatsResponse) (cName : String) : List MetricEvent :=
  let totals := blkioTotals s.blkioServiceBytes
  [ { name := "dex_block_io_read_bytes_total"
      help := "Block I/O read bytes"
      kind := MetricKind.counter
      value := FVal.num (totals.1 : ℚ)
      label := cName },
    { name := "dex_block_io_write_bytes_total"
      help := "Block I/O write bytes"
      kind := MetricKind.counter
      value := FVal.num (totals.2 : ℚ)
      label := cName } ]

/-- `pidsMetrics` (collector.go lines 244-251). -/
def pidsMetrics (s : StatsResponse) (cName : String) : List MetricEvent :=
  [ { name := "dex_pids_current"
      help := "Current number of pids in the cgroup"
      kind := MetricKind.counter
      value := FVal.num (s.pidsStats.current : ℚ)
      label := cName } ]

/-- Outcome of a run: the events emitted on the channel, tagged by
whether a `log.Fatal` terminated the process along the way. -/
inductive RunResult where
  | ok (events : List MetricEvent)
  | fatal (events : List MetricEvent)
deriving DecidableEq, Repr

/-- Events emitted on the channel before the run ended. -/
def RunResult.events : RunResult → List MetricEvent
  | RunResult.ok es => es
  | RunResult.fatal es => es

/-- Whether the run ended in `log.Fatal` (process termination). -/
def RunResult.isFatal : RunResult → Bool
  | RunResult.ok _ => false
  | RunResult.fatal _ => true

/-- `strings.Join(elems, sep)`: the empty string for an empty list,
otherwise the elements with `sep` between consecutive ones. -/
def goJoin (sep : String) : List String → String
  | [] => ""
  | [s] => s
  | s :: rest => s ++ sep ++ goJoin sep rest

/-- `strings.TrimPrefix(s, "/")`: drop one leading `/` if present. -/
def goTrimSlash (s : String) : String :=
  match s.data with
  | c :: rest => if c = '/' then String.mk rest else s
  | [] => s

/-- The name normalization of collector.go line 71:
`strings.TrimPrefix(strings.Join(cont.Names, ";"), "/")`. -/
def normalizeName (names : List String) : String :=
  goTrimSlash (goJoin ";" names)

/-- The three lifecycle gauges of collector.go lines 78-112, each 1
for the matching state string and 0 otherwise. -/
def stateMetrics (state : String) (cName : String) : List MetricEvent :=
  let isRunning : ℚ := if state = "running" then 1 else 0
  let isRestarting : ℚ := if state = "restarting" then 1 else 0
  let isExited : ℚ := if state = "exited" then 1 else 0
  [ { name := "dex_container_running"
      help := "1 if docker container is running, 0 otherwise"
      kind := MetricKind.gauge
      value := FVal.num isRunning
      label := cName },
    { name := "dex_container_restarting"
      help := "1 if docker container is restarting, 0 otherwise"
      kind := MetricKind.gauge
      value := FVal.num isRestarting
      label := cName },
    { name := "dex_container_exited"
      help := "1 if docker container exited, 0 otherwise"
      kind := MetricKind.gauge
      value := FVal.num isExited
      label := cName } ]

/-- The restart-count counter of collector.go lines 117-122. -/
def restartMetric (restartCount : Nat) (cName : String) : MetricEvent :=
  { name := "dex_container_restarts_total"
    help := "Number of times the container has restarted"
    kind := MetricKind.counter
    value := FVal.num (restartCount : ℚ)
    label := cName }

/-- `processContainer` (collector.go lines 68-151).

`find` is `containerRe.FindStringSubmatch`; `inspectRes` the result of
`ContainerInspect` (restart count on success); `statsRes` the result of
`ContainerStats` together with the decode outcome: `Except.error` is a
call failure (`log.Fatal` in the source), `Except.ok none` a decode
failure (`log.Error`, then the zero-valued struct is used), and
`Except.ok (some s)` a successful decode. -/
def processContainer (find : String → List String) (cont : ContainerSummary)
    (inspectRes : Except String Nat)
    (statsRes : Except String (Option StatsResponse)) : RunResult :=
  let cName0 := normalizeName cont.names
  match find cName0 with
  | [] => RunResult.ok []
  | x :: xs =>
    let cName := (x :: xs).getLast (by simp)
    let lifecycle := stateMetrics cont.state cName
    match inspectRes with
    | Except.error _ => RunResult.fatal lifecycle
    | Except.ok restartCount =>
      let withRestart := lifecycle ++ [restartMetric restartCount cName]
      if cont.state = "running" then
        match statsRes with
        | Except.error _ => RunResult.fatal withRestart
        | Except.ok decoded =>
          let containerStats := decoded.getD zeroStats
          RunResult.ok (withRestart
            ++ blockIoMetrics containerStats cName
            ++ memoryMetrics containerStats cName
            ++ networkMetrics containerStats cName
            ++ CPUMetrics containerStats cName
            ++ pidsMetrics containerStats cName)
      else
        RunResult.ok withRestart

/-- `Collect` (collector.go lines 49-66): on a listing failure, log and
return with no events; otherwise fan out `processContainer` over every
record, one unit per container, a fatal unit killing the process.  The
fan-out is concurrent in the source with no cross-container ordering
guarantee; the model fixes the enumeration order. -/
def Collect (find : String → List String)
    (listRes : Except String (List ContainerSummary))
    (inspect : String → Except String Nat)
    (stats : String → Except String (Option StatsResponse)) : RunResult :=
  match listRes with
  | Except.error _ => RunResult.ok []
  | Except.ok containers =>
    containers.foldl
      (fun acc cont =>
        match acc with
        | RunResult.fatal es => RunResult.fatal es
        | RunResult.ok es =>
          match processContainer find cont (inspect cont.id) (stats cont.id) with
          | RunResult.fatal es2 => RunResult.fatal (es ++ es2)
          | RunResult.ok es2 => RunResult.ok (es ++ es2))
      (RunResult.ok [])

/-- The match-everything filter compiled from the default pattern
`.*`, which has no capture group: `FindStringSubmatch` returns the
whole match only. -/
def findAll (s : String) : List String := [s]

/-- Concrete snapshot of the specification's end-to-end scenario A:
cpu totals 500000000/400000000 ns, system 10000000000/9000000000 ns,
memory 120MB used with 20MB cache and a 200MB limit, eth0 1000/2000
bytes, three block-I/O records, 7 pids. -/
def statsA : StatsResponse :=
  { cpuStats := { cpuUsage := { totalUsage := 500000000 }, systemUsage := 10000000000 }
    preCpuStats := { cpuUsage := { totalUsage := 400000000 }, systemUsage := 9000000000 }
    memoryStats := { usage := 125829120, limit := 209715200, stats := [("cache", 20971520)] }
    networks := [("eth0", { rxBytes := 1000, txBytes := 2000 })]
    blkioServiceBytes := [⟨"Read", 100⟩, ⟨"Write", 50⟩, ⟨"read", 25⟩]
    pidsStats := { current := 7 } }

/-- Concrete snapshot whose previous counters exceed the current ones
and whose cache stat exceeds the raw memory usage: every subtraction
in the derivation wraps. -/
def statsWrap : StatsResponse :=
  { cpuStats := { cpuUsage := { totalUsage := 5 }, systemUsage := 3 }
    preCpuStats := { cpuUsage := { totalUsage := 10 }, systemUsage := 7 }
    memoryStats := { usage := 100, limit := 0, stats := [("cache", 200)] }
    networks := []
    blkioServiceBytes := []
    pidsStats := { current := 0 } }

/-! ### Helper lemmas -/

theorem W_eq : W = 18446744073709551616 := by norm_num [W]

theorem sub64_eq_of_le {a b : Nat} (h : b ≤ a) (ha : a < W) : sub64 a b = a - b := by
  simp only [sub64, W_eq] at *
  omega

theorem sub64_eq_of_lt {a b : Nat} (h : a < b) (hb : b < W) : sub64 a b = W + a - b := by
  simp only [sub64, W_eq] at *
  omega

theorem stateMetrics_label {st n : String} {ev : MetricEvent}
    (h : ev ∈ stateMetrics st n) : ev.label = n := by
  simp only [stateMetrics, List.mem_cons, List.not_mem_nil, or_false] at h
  rcases h with h | h | h <;> subst h <;> rfl

theorem blockIoMetrics_label {s : StatsResponse} {n : String} {ev : MetricEvent}
    (h : ev ∈ blockIoMetrics s n) : ev.label = n := by
  simp only [blockIoMetrics, List.mem_cons, List.not_mem_nil, or_false] at h
  rcases h with h | h <;> subst h <;> rfl

theorem memoryMetrics_label {s : StatsResponse} {n : String} {ev : MetricEvent}
    (h : ev ∈ memoryMetrics s n) : ev.label = n := by
  simp only [memoryMetrics, List.mem_cons, List.not_mem_nil, or_false] at h
  rcases h with h | h | h <;> subst h <;> rfl

theorem networkMetrics_label {s : StatsResponse} {n : String} {ev : MetricEvent}
    (h : ev ∈ networkMetrics s n) : ev.label = n := by
  simp only [networkMetrics, List.mem_cons, List.not_mem_nil, or_false] at h
  rcases h with h | h <;> subst h <;> rfl

theorem CPUMetrics_label {s : StatsResponse} {n : String} {ev : MetricEvent}
    (h : ev ∈ CPUMetrics s n) : ev.label = n := by
  simp only [CPUMetrics, List.mem_cons, List.not_mem_nil, or_false] at h
  rcases h with h | h <;> subst h <;> rfl

theorem pidsMetrics_label {s : StatsResponse} {n : String} {ev : MetricEvent}
    (h : ev ∈ pidsMetrics s n) : ev.label = n := by
  simp only [pidsMetrics, List.mem_cons, List.not_mem_nil, or_false] at h
  subst h; rfl

theorem restartMetric_label {rc : Nat} {n : String} : (restartMetric rc n).label = n := rfl

/-! ### Claim theorems -/

/-- Claim C1 (code_bug evidence): when the per-container inspect call
fails, `processContainer` ends in `log.Fatal` — the process is
terminated, the restart-count metric is not the only thing omitted, and
only the lifecycle gauges already pushed before the call were emitted.
This contradicts the claim that the failure is recoverable at container
granularity. -/
theorem processContainer_inspect_failure_is_fatal :
    processContainer (fun s => [s]) ⟨"id1", ["/web-1"], "running"⟩
        (Except.error "inspect failed") (Except.ok (some zeroStats)) =
      RunResult.fatal (stateMetrics "running" "web-1") ∧
    (processContainer (fun s => [s]) ⟨"id1", ["/web-1"], "running"⟩
        (Except.error "inspect failed") (Except.ok (some zeroStats))).isFatal = true := by
  constructor <;> rfl

/-- Claim C2 (code_bug evidence): when the stats payload fails to
decode, `processContainer` logs but then derives and emits every
resource metric from the zero-valued struct — among them a
`dex_cpu_utilization_percent` gauge whose value is the IEEE `NaN` of
the unguarded `0/0` — instead of skipping the resource metrics. -/
theorem processContainer_decode_failure_emits_zero_struct_metrics :
    processContainer (fun s => [s]) ⟨"id1", ["/web-1"], "running"⟩
        (Except.ok 2) (Except.ok none) =
      RunResult.ok (stateMetrics "running" "web-1" ++ [restartMetric 2 "web-1"]
        ++ blockIoMetrics zeroStats "web-1" ++ memoryMetrics zeroStats "web-1"
        ++ networkMetrics zeroStats "web-1" ++ CPUMetrics zeroStats "web-1"
        ++ pidsMetrics zeroStats "web-1") ∧
    { name := "dex_cpu_utilization_percent"
      help := "CPU utilization in percent"
      kind := MetricKind.gauge
      value := FVal.nan
      label := "web-1" } ∈
      (processContainer (fun s => [s]) ⟨"id1", ["/web-1"], "running"⟩
        (Except.ok 2) (Except.ok none)).events ∧
    FVal.nan ≠ FVal.num 0 := by
  refine ⟨rfl, ?_, by decide⟩
  show _ ∈ (stateMetrics "running" "web-1" ++ [restartMetric 2 "web-1"]
    ++ blockIoMetrics zeroStats "web-1" ++ memoryMetrics zeroStats "web-1"
    ++ networkMetrics zeroStats "web-1" ++ CPUMetrics zeroStats "web-1"
    ++ pidsMetrics zeroStats "web-1")
  exact List.mem_append_left _ (List.mem_append_right _ (List.mem_cons_self _ _))

/-- Claim C3 (code_bug evidence): the percent divisions are not
guarded.  On a snapshot whose system-usage delta is zero the CPU gauge
is `NaN` (`0/0`) or `+Inf` (positive delta over zero), and on a zero
memory limit the memory-utilization gauge is `NaN` — never the value
`0` the claim requires. -/
theorem zero_denominator_emits_nan_not_zero :
    (CPUMetrics zeroStats "c").head? = some
      { name := "dex_cpu_utilization_percent"
        help := "CPU utilization in percent"
        kind := MetricKind.gauge
        value := FVal.nan
        label := "c" } ∧
    (CPUMetrics { zeroStats with
        cpuStats := { cpuUsage := { totalUsage := 5 }, systemUsage := 7 }
        preCpuStats := { cpuUsage := { totalUsage := 1 }, systemUsage := 7 } }
      "c").head? = some
      { name := "dex_cpu_utilization_percent"
        help := "CPU utilization in percent"
        kind := MetricKind.gauge
        value := FVal.inf
        label := "c" } ∧
    (memoryMetrics zeroStats "c").getLast? = some
      { name := "dex_memory_utilization_percent"
        help := "Memory utilization percent"
        kind := MetricKind.gauge
        value := FVal.nan
        label := "c" } ∧
    FVal.nan ≠ FVal.num 0 ∧ FVal.inf ≠ FVal.num 0 := by
  refine ⟨?_, ?_, ?_, by decide, by decide⟩ <;> decide

/-- Claim C9: a failed container-listing call makes the cycle log and
return: `Collect` yields zero metric events, does not end in
`log.Fatal`, and starts no per-container work — the result is the same
for every inspect / stats behavior, and only this cycle is affected
(`Collect` is a pure function of one cycle's inputs). -/
theorem Collect_enumeration_failure_empty (find : String → List String)
    (e : String) (inspect : String → Except String Nat)
    (stats : String → Except String (Option StatsResponse))
    (inspect2 : String → Except String Nat)
    (stats2 : String → Except String (Option StatsResponse)) :
    Collect find (Except.error e) inspect stats = RunResult.ok [] ∧
    (Collect find (Except.error e) inspect stats).events = [] ∧
    (Collect find (Except.error e) inspect stats).isFatal = false ∧
    Collect find (Except.error e) inspect stats =
      Collect find (Except.error e) inspect2 stats2 := by
  exact ⟨rfl, rfl, rfl, rfl⟩

/-- Claim C4: for a snapshot with monotone in-range counters and a
nonzero system delta, the CPU gauge is
`100 * (currentTotalUsage - previousTotalUsage) /
(currentSystemUsage - previousSystemUsage)`, the CPU counter is
`currentTotalUsage / 1e9`, and these are exactly the two CPU metrics
emitted. -/
theorem CPUMetrics_formula (s : StatsResponse) (n : String)
    (h1 : s.preCpuStats.cpuUsage.totalUsage ≤ s.cpuStats.cpuUsage.totalUsage)
    (h2 : s.cpuStats.cpuUsage.totalUsage < W)
    (h3 : s.preCpuStats.systemUsage ≤ s.cpuStats.systemUsage)
    (h4 : s.cpuStats.systemUsage < W)
    (h5 : s.preCpuStats.systemUsage ≠ s.cpuStats.systemUsage) :
    CPUMetrics s n =
      [ { name := "dex_cpu_utilization_percent"
          help := "CPU utilization in percent"
          kind := MetricKind.gauge
          value := FVal.num (100 * (((s.cpuStats.cpuUsage.totalUsage : ℚ) -
            (s.preCpuStats.cpuUsage.totalUsage : ℚ)) /
            ((s.cpuStats.systemUsage : ℚ) - (s.preCpuStats.systemUsage : ℚ))))
          label := n },
        { name := "dex_cpu_utilization_seconds_total"
          help := "Cumulative CPU utilization in seconds"
          kind := MetricKind.counter
          value := FVal.num ((s.cpuStats.cpuUsage.totalUsage : ℚ) / 1000000000)
          label := n } ] ∧
    (CPUMetrics s n).length = 2 := by
  have hd : s.cpuStats.systemUsage - s.preCpuStats.systemUsage ≠ 0 := by omega
  refine ⟨?_, rfl⟩
  simp only [CPUMetrics, sub64_eq_of_le h1 h2, sub64_eq_of_le h3 h4, fdivMul100, if_neg hd]
  have hv : ((s.cpuStats.cpuUsage.totalUsage - s.preCpuStats.cpuUsage.totalUsage : Nat) : ℚ) /
      ((s.cpuStats.systemUsage - s.preCpuStats.systemUsage : Nat) : ℚ) * 100 =
      100 * (((s.cpuStats.cpuUsage.totalUsage : ℚ) -
        (s.preCpuStats.cpuUsage.totalUsage : ℚ)) /
        ((s.cpuStats.systemUsage : ℚ) - (s.preCpuStats.systemUsage : ℚ))) := by
    rw [Nat.cast_sub h1, Nat.cast_sub h3]; ring
  rw [hv]

/-- Witness for C4 at the spec's scenario-A snapshot: 10 percent and
half a second. -/
theorem CPUMetrics_formula_witness :
    CPUMetrics statsA "web-1" =
      [ { name := "dex_cpu_utilization_percent"
          help := "CPU utilization in percent"
          kind := MetricKind.gauge
          value := FVal.num 10
          label := "web-1" },
        { name := "dex_cpu_utilization_seconds_total"
          help := "Cumulative CPU utilization in seconds"
          kind := MetricKind.counter
          value := FVal.num (1 / 2)
          label := "web-1" } ] := by
  rw [(CPUMetrics_formula statsA "web-1" (by decide) (by decide) (by decide)
    (by decide) (by decide)).1]
  norm_num [statsA]

/-- Claim C5: the memory metrics are usage = rawUsage minus the value
under category key "cache" (a missing key behaves as zero), total =
memoryLimit, and — for a nonzero limit — utilization =
100 * usage / total; usage is a counter, total and utilization are
gauges, and these are exactly the three memory metrics emitted. -/
theorem memoryMetrics_formula (s : StatsResponse) (n : String)
    (h1 : lookupNat s.memoryStats.stats "cache" ≤ s.memoryStats.usage)
    (h2 : s.memoryStats.usage < W)
    (h3 : s.memoryStats.limit ≠ 0) :
    memoryMetrics s n =
      [ { name := "dex_memory_usage_bytes"
          help := "Total memory usage bytes"
          kind := MetricKind.counter
          value := FVal.num ((s.memoryStats.usage : ℚ) -
            (lookupNat s.memoryStats.stats "cache" : ℚ))
          label := n },
        { name := "dex_memory_total_bytes"
          help := "Total memory bytes"
          kind := MetricKind.gauge
          value := FVal.num (s.memoryStats.limit : ℚ)
          label := n },
        { name := "dex_memory_utilization_percent"
          help := "Memory utilization percent"
          kind := MetricKind.gauge
          value := FVal.num (100 * (((s.memoryStats.usage : ℚ) -
            (lookupNat s.memoryStats.stats "cache" : ℚ)) /
            (s.memoryStats.limit : ℚ)))
          label := n } ] ∧
    (∀ m : List (String × Nat), m.lookup "cache" = none →
      lookupNat m "cache" = 0) := by
  refine ⟨?_, fun m hm => by simp [lookupNat, hm]⟩
  simp only [memoryMetrics, sub64_eq_of_le h1 h2, fdivMul100, if_neg h3]
  have hu : ((s.memoryStats.usage - lookupNat s.memoryStats.stats "cache" : Nat) : ℚ) =
      (s.memoryStats.usage : ℚ) - (lookupNat s.memoryStats.stats "cache" : ℚ) :=
    Nat.cast_sub h1
  have hv : ((s.memoryStats.usage - lookupNat s.memoryStats.stats "cache" : Nat) : ℚ) /
      (s.memoryStats.limit : ℚ) * 100 =
      100 * (((s.memoryStats.usage : ℚ) -
        (lookupNat s.memoryStats.stats "cache" : ℚ)) / (s.memoryStats.limit : ℚ)) := by
    rw [hu]; ring
  rw [hv, hu]

/-- Witness for C5 at the spec's scenario-A snapshot: 100MB usage out
of a 200MB limit is 50 percent. -/
theorem memoryMetrics_formula_witness :
    memoryMetrics statsA "web-1" =
      [ { name := "dex_memory_usage_bytes"
          help := "Total memory usage bytes"
          kind := MetricKind.counter
          value := FVal.num 104857600
          label := "web-1" },
        { name := "dex_memory_total_bytes"
          help := "Total memory bytes"
          kind := MetricKind.gauge
          value := FVal.num 209715200
          label := "web-1" },
        { name := "dex_memory_utilization_percent"
          help := "Memory utilization percent"
          kind := MetricKind.gauge
          value := FVal.num 50
          label := "web-1" } ] := by
  rw [(memoryMetrics_formula statsA "web-1" (by decide) (by decide) (by decide)).1]
  norm_num [statsA, lookupNat]

theorem W_pos : 0 < W := by rw [W_eq]; omega

theorem blkioTotals_foldl (l : List BlkioStatEntry) : ∀ r w : Nat, r < W → w < W →
    l.foldl blkioStep (r, w) =
      ((r + ((l.filter fun b => equalFold b.op "read").map BlkioStatEntry.value).sum) % W,
       (w + ((l.filter fun b => equalFold b.op "write").map BlkioStatEntry.value).sum) % W) := by
  induction l with
  | nil =>
    intro r w hr hw
    simp [Nat.mod_eq_of_lt hr, Nat.mod_eq_of_lt hw]
  | cons b t ih =>
    intro r w hr hw
    by_cases hb1 : equalFold b.op "read" = true <;>
      by_cases hb2 : equalFold b.op "write" = true <;>
        simp only [List.foldl_cons, blkioStep, hb1, hb2, if_true, if_false,
          List.filter_cons, List.map_cons, List.sum_cons, Bool.false_eq_true,
          ite_true, ite_false] <;>
        rw [ih _ _ (by first | exact Nat.mod_lt _ W_pos | exact hr)
          (by first | exact Nat.mod_lt _ W_pos | exact hw)] <;>
        simp only [Prod.mk.injEq] <;>
        constructor <;>
        first
          | rw [Nat.mod_add_mod, Nat.add_assoc]
          | rw [Nat.mod_eq_of_lt hr]
          | rw [Nat.mod_eq_of_lt hw]
          | rfl
          | trivial

theorem blkioTotals_eq_sum (l : List BlkioStatEntry) :
    blkioTotals l =
      (((l.filter fun b => equalFold b.op "read").map BlkioStatEntry.value).sum % W,
       ((l.filter fun b => equalFold b.op "write").map BlkioStatEntry.value).sum % W) := by
  simpa using blkioTotals_foldl l 0 0 W_pos W_pos

/-- Claim C8: block I/O aggregation is a permutation-invariant fold —
permuting the service-bytes records never changes the two emitted
counters — and each total is exactly the (wrapped) sum of the values of
the records whose operation matches "read" / "write"
case-insensitively, so records of any other operation kind contribute
zero to both totals. -/
theorem blockIo_perm_invariant (s : StatsResponse) (n : String)
    (l2 : List BlkioStatEntry) (h : s.blkioServiceBytes.Perm l2) :
    blockIoMetrics s n = blockIoMetrics { s with blkioServiceBytes := l2 } n ∧
    (blkioTotals s.blkioServiceBytes).1 =
      ((s.blkioServiceBytes.filter fun b => equalFold b.op "read").map
        BlkioStatEntry.value).sum % W ∧
    (blkioTotals s.blkioServiceBytes).2 =
      ((s.blkioServiceBytes.filter fun b => equalFold b.op "write").map
        BlkioStatEntry.value).sum % W := by
  have hread : ((s.blkioServiceBytes.filter fun b => equalFold b.op "read").map
      BlkioStatEntry.value).sum =
      ((l2.filter fun b => equalFold b.op "read").map BlkioStatEntry.value).sum :=
    ((h.filter _).map _).sum_eq
  have hwrite : ((s.blkioServiceBytes.filter fun b => equalFold b.op "write").map
      BlkioStatEntry.value).sum =
      ((l2.filter fun b => equalFold b.op "write").map BlkioStatEntry.value).sum :=
    ((h.filter _).map _).sum_eq
  refine ⟨?_, ?_, ?_⟩
  · simp only [blockIoMetrics, blkioTotals_eq_sum, hread, hwrite]
  · rw [blkioTotals_eq_sum]
  · rw [blkioTotals_eq_sum]

/-- Witness for C8 at the scenario-A records and a reversal of them:
both orders give the same read and write totals. -/
theorem blockIo_perm_invariant_witness :
    blockIoMetrics statsA "web-1" =
      blockIoMetrics { statsA with
        blkioServiceBytes := [⟨"read", 25⟩, ⟨"Write", 50⟩, ⟨"Read", 100⟩] } "web-1" ∧
    (blkioTotals statsA.blkioServiceBytes).1 =
      ((statsA.blkioServiceBytes.filter fun b => equalFold b.op "read").map
        BlkioStatEntry.value).sum % W ∧
    (blkioTotals statsA.blkioServiceBytes).2 =
      ((statsA.blkioServiceBytes.filter fun b => equalFold b.op "write").map
        BlkioStatEntry.value).sum % W :=
  blockIo_perm_invariant statsA "web-1" _ (by decide)

/-- Claim C6: name resolution joins the raw names, strips a single
leading path separator, applies the pattern, and uses the last element
of the submatch vector (the last capture group when groups exist,
otherwise the whole match) as the label of every emitted metric; a
container whose normalized name has no match contributes zero metric
events. -/
theorem processContainer_name_resolution (find : String → List String)
    (cont : ContainerSummary) (ir : Except String Nat)
    (sr : Except String (Option StatsResponse)) :
    (find (normalizeName cont.names) = [] →
      processContainer find cont ir sr = RunResult.ok []) ∧
    (∀ x xs, find (normalizeName cont.names) = x :: xs →
      ∀ ev ∈ (processContainer find cont ir sr).events,
        ev.label = (x :: xs).getLast (List.cons_ne_nil x xs)) := by
  constructor
  · intro h
    simp [processContainer, h]
  · intro x xs h ev hev
    rcases ir with e | rc
    · simp only [processContainer, h, RunResult.events] at hev
      exact stateMetrics_label hev
    · rcases sr with e2 | dec
      · simp only [processContainer, h] at hev
        split at hev
        · simp only [RunResult.events] at hev
          simp only [List.mem_append, List.mem_singleton] at hev
          rcases hev with (h1 | h1)
          · exact stateMetrics_label h1
          · subst h1; rfl
        · simp only [RunResult.events] at hev
          simp only [List.mem_append, List.mem_singleton] at hev
          rcases hev with (h1 | h1)
          · exact stateMetrics_label h1
          · subst h1; rfl
      · simp only [processContainer, h] at hev
        split at hev
        · simp only [RunResult.events] at hev
          simp only [List.mem_append, List.mem_singleton] at hev
          rcases hev with ((((((h1 | h1) | h1) | h1) | h1) | h1) | h1)
          · exact stateMetrics_label h1
          · subst h1; rfl
          · exact blockIoMetrics_label h1
          · exact memoryMetrics_label h1
          · exact networkMetrics_label h1
          · exact CPUMetrics_label h1
          · exact pidsMetrics_label h1
        · simp only [RunResult.events] at hev
          simp only [List.mem_append, List.mem_singleton] at hev
          rcases hev with (h1 | h1)
          · exact stateMetrics_label h1
          · subst h1; rfl

/-- Witness for C6: a pattern with no match yields zero events, and
with a two-capture-group submatch vector the label of an emitted
event is the last captured group. -/
theorem processContainer_name_resolution_witness :
    processContainer (fun _ => ([] : List String)) ⟨"id1", ["/web-1"], "running"⟩
        (Except.ok 2) (Except.ok (some statsA)) = RunResult.ok [] ∧
    ({ name := "dex_container_running"
       help := "1 if docker container is running, 0 otherwise"
       kind := MetricKind.gauge
       value := FVal.num 1
       label := "grp2" } : MetricEvent).label = "grp2" := by
  refine ⟨(processContainer_name_resolution (fun _ => []) _ _ _).1 rfl, ?_⟩
  exact (processContainer_name_resolution (fun s => [s, "grp1", "grp2"])
    ⟨"id1", ["/web-1"], "running"⟩ (Except.ok 2) (Except.ok (some statsA))).2
    "web-1" ["grp1", "grp2"] rfl _
    (List.mem_append_left _ (List.mem_append_left _ (List.mem_append_left _
      (List.mem_append_left _ (List.mem_append_left _ (List.mem_append_left _
        (List.mem_cons_self _ _)))))))

/-- Claim C7: for a filtered container the stats snapshot is consulted
and resource metrics are derived exactly when the enumerated state is
"running": a non-running container yields the three lifecycle gauges
and the restart counter only, with a result independent of the stats
call, while a running one additionally yields the five resource-metric
families. -/
theorem processContainer_running_gate (find : String → List String)
    (cont : ContainerSummary) (rc : Nat) (s : StatsResponse)
    (sr sr2 : Except String (Option StatsResponse)) (x : String) (xs : List String)
    (hm : find (normalizeName cont.names) = x :: xs) :
    (cont.state ≠ "running" →
      processContainer find cont (Except.ok rc) sr =
        RunResult.ok
          (stateMetrics cont.state ((x :: xs).getLast (List.cons_ne_nil x xs)) ++
            [restartMetric rc ((x :: xs).getLast (List.cons_ne_nil x xs))]) ∧
      processContainer find cont (Except.ok rc) sr =
        processContainer find cont (Except.ok rc) sr2) ∧
    (cont.state = "running" →
      processContainer find cont (Except.ok rc) (Except.ok (some s)) =
        RunResult.ok
          (stateMetrics cont.state ((x :: xs).getLast (List.cons_ne_nil x xs)) ++
            [restartMetric rc ((x :: xs).getLast (List.cons_ne_nil x xs))] ++
            blockIoMetrics s ((x :: xs).getLast (List.cons_ne_nil x xs)) ++
            memoryMetrics s ((x :: xs).getLast (List.cons_ne_nil x xs)) ++
            networkMetrics s ((x :: xs).getLast (List.cons_ne_nil x xs)) ++
            CPUMetrics s ((x :: xs).getLast (List.cons_ne_nil x xs)) ++
            pidsMetrics s ((x :: xs).getLast (List.cons_ne_nil x xs)))) := by
  constructor
  · intro hst
    constructor
    · simp only [processContainer, hm]
      rw [if_neg hst]
    · simp only [processContainer, hm]
      rw [if_neg hst, if_neg hst]
  · intro hst
    simp only [processContainer, hm]
    rw [if_pos hst]
    rfl

/-- Witness for C7: an exited container yields exactly the four
lifecycle/restart events whatever the stats call would have returned,
and a running one additionally yields the resource metrics. -/
theorem processContainer_running_gate_witness :
    processContainer findAll ⟨"id1", ["/web-1"], "exited"⟩ (Except.ok 2)
        (Except.ok (some statsA)) =
      RunResult.ok (stateMetrics "exited" "web-1" ++ [restartMetric 2 "web-1"]) ∧
    processContainer findAll ⟨"id1", ["/web-1"], "exited"⟩ (Except.ok 2)
        (Except.ok (some statsA)) =
      processContainer findAll ⟨"id1", ["/web-1"], "exited"⟩ (Except.ok 2)
        (Except.error "never fetched") ∧
    processContainer findAll ⟨"id1", ["/web-1"], "running"⟩ (Except.ok 2)
        (Except.ok (some statsA)) =
      RunResult.ok (stateMetrics "running" "web-1" ++ [restartMetric 2 "web-1"] ++
        blockIoMetrics statsA "web-1" ++ memoryMetrics statsA "web-1" ++
        networkMetrics statsA "web-1" ++ CPUMetrics statsA "web-1" ++
        pidsMetrics statsA "web-1") := by
  have h1 := (processContainer_running_gate findAll ⟨"id1", ["/web-1"], "exited"⟩ 2 statsA
    (Except.ok (some statsA)) (Except.error "never fetched") "web-1" [] rfl).1 (by decide)
  have h2 := (processContainer_running_gate findAll ⟨"id1", ["/web-1"], "running"⟩ 2 statsA
    (Except.ok (some statsA)) (Except.ok (some statsA)) "web-1" [] rfl).2 rfl
  exact ⟨h1.1, h1.2, h2⟩

/-- Claim C10: the CPU-delta, system-delta and memory-usage
subtractions happen in wrapping 64-bit arithmetic before the float
conversion: with a previous counter above the current one (or a cache
stat above the raw usage) the difference is the huge positive value
`2^64 + current - previous`, and the emitted metric values are built
from it — positive, never negative and never an error. -/
theorem wrapped_subtraction_huge_positive (s : StatsResponse) (n : String)
    (h1 : s.cpuStats.cpuUsage.totalUsage < s.preCpuStats.cpuUsage.totalUsage)
    (h2 : s.preCpuStats.cpuUsage.totalUsage < W)
    (h3 : s.cpuStats.systemUsage < s.preCpuStats.systemUsage)
    (h4 : s.preCpuStats.systemUsage < W)
    (h5 : s.memoryStats.usage < lookupNat s.memoryStats.stats "cache")
    (h6 : lookupNat s.memoryStats.stats "cache" < W) :
    sub64 s.cpuStats.cpuUsage.totalUsage s.preCpuStats.cpuUsage.totalUsage =
      W + s.cpuStats.cpuUsage.totalUsage - s.preCpuStats.cpuUsage.totalUsage ∧
    sub64 s.cpuStats.systemUsage s.preCpuStats.systemUsage =
      W + s.cpuStats.systemUsage - s.preCpuStats.systemUsage ∧
    sub64 s.memoryStats.usage (lookupNat s.memoryStats.stats "cache") =
      W + s.memoryStats.usage - lookupNat s.memoryStats.stats "cache" ∧
    (memoryMetrics s n).head? = some
      { name := "dex_memory_usage_bytes"
        help := "Total memory usage bytes"
        kind := MetricKind.counter
        value := FVal.num ((W + s.memoryStats.usage -
          lookupNat s.memoryStats.stats "cache" : Nat) : ℚ)
        label := n } ∧
    0 < ((W + s.memoryStats.usage - lookupNat s.memoryStats.stats "cache" : Nat) : ℚ) ∧
    (CPUMetrics s n).head? = some
      { name := "dex_cpu_utilization_percent"
        help := "CPU utilization in percent"
        kind := MetricKind.gauge
        value := FVal.num (((W + s.cpuStats.cpuUsage.totalUsage -
            s.preCpuStats.cpuUsage.totalUsage : Nat) : ℚ) /
          ((W + s.cpuStats.systemUsage - s.preCpuStats.systemUsage : Nat) : ℚ) * 100)
        label := n } ∧
    0 < ((W + s.cpuStats.cpuUsage.totalUsage -
      s.preCpuStats.cpuUsage.totalUsage : Nat) : ℚ) := by
  have e1 := sub64_eq_of_lt h1 h2
  have e2 := sub64_eq_of_lt h3 h4
  have e3 := sub64_eq_of_lt h5 h6
  have hsd : W + s.cpuStats.systemUsage - s.preCpuStats.systemUsage ≠ 0 := by
    have := W_eq; omega
  refine ⟨e1, e2, e3, ?_, ?_, ?_, ?_⟩
  · simp only [memoryMetrics, e3, List.head?]
  · exact_mod_cast Nat.pos_of_ne_zero (by have := W_eq; omega)
  · simp only [CPUMetrics, e1, e2, fdivMul100, if_neg hsd, List.head?]
  · exact_mod_cast Nat.pos_of_ne_zero (by have := W_eq; omega)

/-- Witness for C10 at a snapshot whose previous counters all exceed
the current ones. -/
theorem wrapped_subtraction_huge_positive_witness :
    sub64 5 10 = W + 5 - 10 ∧
    sub64 3 7 = W + 3 - 7 ∧
    sub64 100 200 = W + 100 - 200 ∧
    (memoryMetrics statsWrap "c").head? = some
      { name := "dex_memory_usage_bytes"
        help := "Total memory usage bytes"
        kind := MetricKind.counter
        value := FVal.num ((W + 100 - 200 : Nat) : ℚ)
        label := "c" } ∧
    0 < ((W + 100 - 200 : Nat) : ℚ) ∧
    (CPUMetrics statsWrap "c").head? = some
      { name := "dex_cpu_utilization_percent"
        help := "CPU utilization in percent"
        kind := MetricKind.gauge
        value := FVal.num (((W + 5 - 10 : Nat) : ℚ) / ((W + 3 - 7 : Nat) : ℚ) * 100)
        label := "c" } ∧
    0 < ((W + 5 - 10 : Nat) : ℚ) :=
  wrapped_subtraction_huge_positive statsWrap "c" (by decide) (by decide) (by decide)
    (by decide) (by decide) (by decide)
